import Mathlib

/-!
Shallow embedding of the derived-view layer of the PE GP dashboard
(`app.py`): the fixed in-memory datasets and the pure view functions
(`filtered_funds`, `filtered_companies`, `summary_table`, `holding_period`,
`cashflow_breakdown`, `cumulative_cashflow`, `lp_summary`), together with a
small state-passing model of the reactive cache used by
`filtered_companies` / `holding_period`.

DataFrames become lists of records (row order is the list order); pandas
boolean-mask indexing becomes `List.filter` (which preserves row order);
`astype(int)` on a column becomes an `Except`-valued column parse that
fails on the first unparseable cell; `sort_values` becomes a sort by the
key; `groupby(...).sum()` becomes a per-key sum over the sorted distinct
keys (pandas `groupby` sorts group keys by default).

The source's view functions close over module-level dataset globals; here
the datasets are explicit arguments so that properties can be stated for
every collection, and the module globals are the concrete lists below.
-/

namespace GPDashboard

/-- A row of the `funds` DataFrame. -/
structure Fund where
  fund : String
  commitment : ℚ
  called : ℚ
  distributions : ℚ
  nav : ℚ
  irr : ℚ
  moic : ℚ
  dpi : ℚ
  rvpi : ℚ
  tvpi : ℚ
deriving DecidableEq

/-- A row of the `companies` DataFrame.  `Investment Date` and `Exit Date`
are stored as strings in the source (years); `Exit Date` is nullable. -/
structure Company where
  company : String
  fund : String
  investmentDate : String
  exitDate : Option String
  cost : Int
  value : Int
  moic : ℚ
deriving DecidableEq

/-- A row of the `cashflows` DataFrame; `Date` is an ISO `YYYY-MM-DD`
string (the source converts the datetime column to `string` dtype). -/
structure Cashflow where
  date : String
  type : String
  amount : Int
  fund : String
deriving DecidableEq

/-- A row of the `pipeline_data` DataFrame. -/
structure Deal where
  deal : String
  stage : String
  leadPartner : String
deriving DecidableEq

/-- A row of the `lp_data` DataFrame. -/
structure LP where
  lpName : String
  commitment : Int
  type : String
  email : String
  phone : String
deriving DecidableEq

/-- The `funds` sample dataset. -/
def funds : List Fund :=
  [⟨"Fund I", 100, 90, 60, 40, 12.5, 1.1, 0.6, 0.44, 1.04⟩,
   ⟨"Fund II", 200, 180, 150, 60, 14.8, 1.3, 0.75, 0.33, 1.08⟩,
   ⟨"Fund III", 300, 250, 200, 100, 17.3, 1.5, 0.8, 0.4, 1.2⟩]

/-- The `companies` sample dataset. -/
def companies : List Company :=
  [⟨"Alpha", "Fund I", "2018", some "2022", 10, 25, 2.5⟩,
   ⟨"Beta", "Fund II", "2019", none, 15, 20, 1.33⟩,
   ⟨"Gamma", "Fund II", "2020", none, 12, 13, 1.08⟩,
   ⟨"Delta", "Fund III", "2021", none, 20, 30, 1.5⟩]

/-- The `cashflows` sample dataset: 8 quarter-end dates starting
2018-03-31 (`pd.date_range("2018-01-01", periods=8, freq='QE')`). -/
def cashflows : List Cashflow :=
  [⟨"2018-03-31", "Investment", -10, "Fund I"⟩,
   ⟨"2018-06-30", "Investment", -15, "Fund I"⟩,
   ⟨"2018-09-30", "Follow-on", -5, "Fund I"⟩,
   ⟨"2018-12-31", "Exit", 30, "Fund I"⟩,
   ⟨"2019-03-31", "Dividend", 2, "Fund I"⟩,
   ⟨"2019-06-30", "Investment", -20, "Fund II"⟩,
   ⟨"2019-09-30", "Exit", 40, "Fund II"⟩,
   ⟨"2019-12-31", "Dividend", 5, "Fund II"⟩]

/-- The `pipeline_data` sample dataset. -/
def pipeline_data : List Deal :=
  [⟨"Startup A", "Screening", "Aditya"⟩,
   ⟨"Startup B", "Due Diligence", "Siddharth"⟩,
   ⟨"Startup C", "IC", "Adrian"⟩,
   ⟨"Startup D", "Closed", "Aditya"⟩,
   ⟨"Startup E", "IC", "Adrian"⟩,
   ⟨"Startup F", "Closed", "Aditya"⟩]

/-- The `lp_data` sample dataset. -/
def lp_data : List LP :=
  [⟨"Sovereign Fund A", 50, "Sovereign", "lpA@example.com", "+62 812-3456"⟩,
   ⟨"Family Office B", 10, "Family Office", "lpB@example.com", "+65 9123-4567"⟩,
   ⟨"Institutional C", 30, "Institution", "lpC@example.com", "+1 415-234-5678"⟩]

/-- Embedding of `filtered_funds`:
`funds[funds["Fund"].isin(selected)] if selected else funds`.
An empty selection is falsy in Python, so no filter is applied; a
non-empty selection keeps the rows whose fund name is in it, in the
original row order (boolean-mask indexing). -/
def filtered_funds (selected : List String) (fs : List Fund) : List Fund :=
  if selected.isEmpty then fs else fs.filter (fun f => selected.contains f.fund)

/-- Parse a non-empty run of decimal digits (most significant first). -/
def digitsToNatAux : List Char → Nat → Option Nat
  | [], acc => some acc
  | c :: cs, acc =>
    if c.isDigit then digitsToNatAux cs (acc * 10 + (c.toNat - 48)) else none

/-- Value of the digit string `cs` under `digitsToNat`, or `none` if the value of the digit string `cs`, or `none` if
`cs` is empty or contains a non-digit. -/
def digitsToNat : List Char → Option Nat
  | [] => none
  | cs => digitsToNatAux cs 0

/-- Model of Python `int(s)` / pandas `.astype(int)` on a single string
cell, for the string forms occurring in this dashboard: an optional minus
sign followed by decimal digits parses; anything else is a
`ValueError` (`none`). -/
def pyInt (s : String) : Option Int :=
  match s.data with
  | '-' :: cs => (digitsToNat cs).map (fun n => -(n : Int))
  | cs => (digitsToNat cs).map (fun n => (n : Int))

/-- Embedding of `.astype(int)` applied to a whole string column: parses every cell,
failing on the first unparseable one (pandas raises a `ValueError` for the
whole conversion; no row is dropped and no default is substituted). -/
def parseYearCol : List String → Except String (List Int)
  | [] => Except.ok []
  | s :: ss =>
    match pyInt s with
    | some n =>
      match parseYearCol ss with
      | Except.ok ns => Except.ok (n :: ns)
      | Except.error e => Except.error e
    | none => Except.error ("invalid literal for int with base 10: " ++ s)

/-- The year-cutoff step `df[df["Investment Date"].astype(int) <= year]`:
convert the whole year column to int (aborting on the first bad cell),
then keep the rows whose year is ≤ `year` (inclusive), in order. -/
def yearCut (year : Int) (ds : List Company) : Except String (List Company) :=
  match parseYearCol (ds.map (fun c => c.investmentDate)) with
  | Except.error e => Except.error e
  | Except.ok inv =>
    Except.ok (((ds.zip inv).filter (fun p => p.2 ≤ year)).map Prod.fst)

/-- The selection step `if selected: df = df[df["Fund"].isin(selected)]`:
a no-op for the falsy empty selection, otherwise the fund-name mask. -/
def selectCompanies (selected : List String) (ds : List Company) : List Company :=
  if selected.isEmpty then ds else ds.filter (fun c => selected.contains c.fund)

/-- Embedding of `filtered_companies`:
```
df = companies.copy()
df = df[df["Investment Date"].astype(int) <= year]
if selected:
    df = df[df["Fund"].isin(selected)]
```
The year column is converted to int first (a conversion failure anywhere
in the column aborts the whole computation), then the year cutoff is
applied (inclusive), then — only when the selection is non-empty — the
fund-name filter. -/
def filtered_companies (selected : List String) (year : Int) (cs : List Company) :
    Except String (List Company) :=
  match yearCut year cs with
  | Except.error e => Except.error e
  | Except.ok df => Except.ok (selectCompanies selected df)

/-- The same two filters applied in the opposite order: fund selection
first, then the `astype(int) <= year` cutoff on the remaining rows.  This
is the reordered variant quantified over by the claim that the two
predicates commute. -/
def filtered_companies_selFirst (selected : List String) (year : Int) (cs : List Company) :
    Except String (List Company) :=
  yearCut year (selectCompanies selected cs)

/-- A company row whose `Investment Date` cell is not an integer literal. -/
def badCompany : Company := ⟨"BadCo", "Fund X", "n/a", none, 0, 0, 0⟩

/-- Round half to even at integer precision (numpy / pandas `round`). -/
def roundHalfEven (q : ℚ) : ℤ :=
  let f := ⌊q⌋
  if q - f < 1 / 2 then f
  else if 1 / 2 < q - f then f + 1
  else if f % 2 = 0 then f else f + 1

/-- Embedding of `DataFrame.round(2)`: round a value to 2 decimal places, half to even. -/
def round2 (q : ℚ) : ℚ := (roundHalfEven (q * 100) : ℚ) / 100

/-- Embedding of `summary_table`: the 4-row (Metric, Value) table of the sums of
Commitment, Called, Distributions and NAV over a fund collection, built in
the dict's insertion order, with `round(2)` applied to the values. -/
def summary_table (df : List Fund) : List (String × ℚ) :=
  [("Total Commitment", round2 ((df.map Fund.commitment).sum)),
   ("Total Called", round2 ((df.map Fund.called).sum)),
   ("Total Distributions", round2 ((df.map Fund.distributions).sum)),
   ("NAV", round2 ((df.map Fund.nav).sum))]

/-- Embedding of `holding_period`:
`df["Holding"] = df["Exit Date"].fillna("2025").astype(int) - df["Investment Date"].astype(int)`.
The exit-year column with the fixed sentinel `"2025"` substituted for
missing cells is parsed, the investment-year column is parsed, and each
row is paired with the difference of the two parsed years. -/
def holding_period (cs : List Company) : Except String (List (Company × Int)) :=
  match parseYearCol (cs.map (fun c => c.exitDate.getD "2025")) with
  | Except.error e => Except.error e
  | Except.ok ex =>
    match parseYearCol (cs.map (fun c => c.investmentDate)) with
    | Except.error e => Except.error e
    | Except.ok inv => Except.ok (cs.zip (ex.zipWith (fun a b => a - b) inv))

end GPDashboard

namespace GPDashboard

theorem parseYearCol_ok (ss : List String) (h : ∀ s ∈ ss, (pyInt s).isSome) :
    parseYearCol ss = Except.ok (ss.map (fun s => (pyInt s).getD 0)) := by
  induction ss with
  | nil => rfl
  | cons s ss ih =>
    obtain ⟨n, hn⟩ := Option.isSome_iff_exists.mp (h s (List.mem_cons_self s ss))
    have ih2 := ih (fun t ht => h t (List.mem_cons_of_mem s ht))
    simp [parseYearCol, hn, ih2]

theorem parseYearCol_error (ss : List String) (h : ∃ s ∈ ss, pyInt s = none) :
    ∃ e, parseYearCol ss = Except.error e := by
  induction ss with
  | nil => simp at h
  | cons s ss ih =>
    cases hps : pyInt s with
    | none =>
      exact ⟨"invalid literal for int with base 10: " ++ s, by simp [parseYearCol, hps]⟩
    | some n =>
      obtain ⟨t, ht, htn⟩ := h
      rcases List.mem_cons.mp ht with rfl | ht2
      · exact absurd htn (by simp [hps])
      · obtain ⟨e, he⟩ := ih ⟨t, ht2, htn⟩
        exact ⟨e, by simp [parseYearCol, hps, he]⟩

theorem zip_map_filter {α β : Type} (g : α → β) (p : β → Bool) (cs : List α) :
    (((cs.zip (cs.map g)).filter (fun q => p q.2)).map Prod.fst)
      = cs.filter (fun c => p (g c)) := by
  induction cs with
  | nil => rfl
  | cons c cs ih =>
    simp only [List.map_cons, List.zip_cons_cons, List.filter_cons]
    by_cases h : p (g c)
    · simp [h, ih]
    · simp [h, ih]

/-- The row-level predicate equivalent to `filtered_companies` when every
year cell parses: investment year ≤ cutoff, and — when the selection is
non-empty — fund name selected. -/
def keepCompany (selected : List String) (year : Int) (c : Company) : Bool :=
  decide ((pyInt c.investmentDate).getD 0 ≤ year)
    && (selected.isEmpty || selected.contains c.fund)

/-- The year predicate each row is kept by, once the column has parsed. -/
def yearPred (year : Int) (c : Company) : Bool :=
  decide ((pyInt c.investmentDate).getD 0 ≤ year)

theorem yearCut_ok (year : Int) (ds : List Company)
    (h : ∀ c ∈ ds, (pyInt c.investmentDate).isSome) :
    yearCut year ds = Except.ok (ds.filter (yearPred year)) := by
  have hp : parseYearCol (ds.map (fun c => c.investmentDate))
      = Except.ok ((ds.map (fun c => c.investmentDate)).map (fun s => (pyInt s).getD 0)) :=
    parseYearCol_ok _ (by
      intro s hs
      obtain ⟨c, hc, rfl⟩ := List.mem_map.mp hs
      exact h c hc)
  rw [List.map_map] at hp
  have hz := zip_map_filter (fun c : Company => (pyInt c.investmentDate).getD 0)
    (fun n => decide (n ≤ year)) ds
  simp only [yearCut, hp, Except.ok.injEq]
  rw [Function.comp_def, hz]
  exact List.filter_congr (fun c _ => rfl)

theorem filtered_companies_eq_filter (selected : List String) (year : Int)
    (cs : List Company) (h : ∀ c ∈ cs, (pyInt c.investmentDate).isSome) :
    filtered_companies selected year cs = Except.ok (cs.filter (keepCompany selected year)) := by
  simp only [filtered_companies, yearCut_ok year cs h]
  by_cases hsel : selected.isEmpty
  · simp only [selectCompanies, hsel, if_true, Except.ok.injEq]
    refine List.filter_congr ?_
    intro c _
    simp [keepCompany, yearPred, hsel]
  · simp only [selectCompanies, hsel, if_false, Except.ok.injEq, List.filter_filter]
    refine List.filter_congr ?_
    intro c _
    simp [keepCompany, yearPred, hsel, Bool.and_comm]

/-- The reordered filters: fund selection first, then the year cutoff, is
again the intersection filter. -/
theorem filtered_companies_selFirst_eq_filter (selected : List String) (year : Int)
    (cs : List Company) (h : ∀ c ∈ cs, (pyInt c.investmentDate).isSome) :
    filtered_companies_selFirst selected year cs
      = Except.ok (cs.filter (keepCompany selected year)) := by
  by_cases hsel : selected.isEmpty
  · simp only [filtered_companies_selFirst, selectCompanies, hsel, if_true,
      yearCut_ok year cs h, Except.ok.injEq]
    refine List.filter_congr ?_
    intro c _
    simp [keepCompany, yearPred, hsel]
  · have hsub : ∀ c ∈ cs.filter (fun c => selected.contains c.fund),
        (pyInt c.investmentDate).isSome := by
      intro c hc
      exact h c (List.mem_of_mem_filter hc)
    have hsel2 : selectCompanies selected cs
        = cs.filter (fun c => selected.contains c.fund) := by
      simp [selectCompanies, hsel]
    simp only [filtered_companies_selFirst, hsel2,
      yearCut_ok year _ hsub, Except.ok.injEq, List.filter_filter]
    refine List.filter_congr ?_
    intro c _
    simp [keepCompany, yearPred, hsel, Bool.and_comm]

/-- C2: `filtered_companies` retains exactly the companies whose
investment year (parsed as an integer) is ≤ the cutoff year, restricted to
the selected funds when the selection is non-empty; on the sample data
with empty selection and cutoff 2019 it returns exactly Alpha and Beta. -/
theorem filtered_companies_spec (selected : List String) (year : Int) (cs : List Company)
    (h : ∀ c ∈ cs, (pyInt c.investmentDate).isSome) :
    filtered_companies selected year cs = Except.ok (cs.filter (keepCompany selected year)) ∧
    filtered_companies [] 2019 companies
      = Except.ok [⟨"Alpha", "Fund I", "2018", some "2022", 10, 25, 2.5⟩,
                   ⟨"Beta", "Fund II", "2019", none, 15, 20, 1.33⟩] :=
  ⟨filtered_companies_eq_filter selected year cs h, by rfl⟩

/-- Concrete instance of `filtered_companies_spec` on the sample data. -/
theorem filtered_companies_spec_witness :
    (∀ c ∈ companies, (pyInt c.investmentDate).isSome) ∧
    filtered_companies ["Fund II"] 2020 companies
      = Except.ok (companies.filter (keepCompany ["Fund II"] 2020)) :=
  ⟨by decide, (filtered_companies_spec ["Fund II"] 2020 companies (by decide)).1⟩

/-- C8: an unparseable investment-year cell makes `filtered_companies`
fail with a propagated data-format error: the result is an `error`, so no
default year is substituted and no row is silently dropped. -/
theorem filtered_companies_error_spec (selected : List String) (year : Int)
    (cs : List Company) (h : ∃ c ∈ cs, pyInt c.investmentDate = none) :
    ∃ e, filtered_companies selected year cs = Except.error e := by
  have hcol : ∃ s ∈ cs.map (fun c => c.investmentDate), pyInt s = none := by
    obtain ⟨c, hc, hn⟩ := h
    exact ⟨c.investmentDate, List.mem_map.mpr ⟨c, hc, rfl⟩, hn⟩
  obtain ⟨e, he⟩ := parseYearCol_error _ hcol
  exact ⟨e, by simp [filtered_companies, yearCut, he]⟩

/-- Concrete instance of `filtered_companies_error_spec`. -/
theorem filtered_companies_error_spec_witness :
    (∃ c ∈ [badCompany], pyInt c.investmentDate = none) ∧
    (∃ e, filtered_companies [] 2019 [badCompany] = Except.error e) :=
  ⟨by decide, filtered_companies_error_spec [] 2019 [badCompany] (by decide)⟩

/-- C9 counterexample: on a collection containing a company with an
unparseable investment year that the fund selection would discard, the
code's order (year cutoff first) aborts with a data-format error while the
reversed order (selection first) succeeds — so the two filter orders do
not agree on every company collection. -/
theorem filter_order_counterexample :
    filtered_companies ["Fund I"] 2019 [badCompany]
        = Except.error "invalid literal for int with base 10: n/a" ∧
    filtered_companies_selFirst ["Fund I"] 2019 [badCompany] = Except.ok [] ∧
    filtered_companies ["Fund I"] 2019 [badCompany]
      ≠ filtered_companies_selFirst ["Fund I"] 2019 [badCompany] := by
  refine ⟨rfl, rfl, ?_⟩
  intro hcontra
  rw [show filtered_companies ["Fund I"] 2019 [badCompany]
      = Except.error "invalid literal for int with base 10: n/a" from rfl,
    show filtered_companies_selFirst ["Fund I"] 2019 [badCompany]
      = Except.ok [] from rfl] at hcontra
  exact Except.noConfusion hcontra

/-- C9 (amended): when every investment-year cell parses as an integer,
the year-cutoff and fund-selection predicates are independent — the result
is the intersection filter and the two application orders coincide. -/
theorem filter_order_comm (selected : List String) (year : Int) (cs : List Company)
    (h : ∀ c ∈ cs, (pyInt c.investmentDate).isSome) :
    filtered_companies selected year cs = Except.ok (cs.filter (keepCompany selected year)) ∧
    filtered_companies_selFirst selected year cs
      = Except.ok (cs.filter (keepCompany selected year)) ∧
    filtered_companies selected year cs = filtered_companies_selFirst selected year cs := by
  refine ⟨filtered_companies_eq_filter selected year cs h,
    filtered_companies_selFirst_eq_filter selected year cs h, ?_⟩
  rw [filtered_companies_eq_filter selected year cs h,
    filtered_companies_selFirst_eq_filter selected year cs h]

/-- Concrete instance of `filter_order_comm` on the sample data. -/
theorem filter_order_comm_witness :
    (∀ c ∈ companies, (pyInt c.investmentDate).isSome) ∧
    filtered_companies ["Fund III"] 2021 companies
      = filtered_companies_selFirst ["Fund III"] 2021 companies :=
  ⟨by decide, (filter_order_comm ["Fund III"] 2021 companies (by decide)).2.2⟩

/-- C1: `filtered_funds` with an empty selection returns the collection
unchanged; with a non-empty selection it returns exactly the rows whose
fund name is in the selection, preserving the original order (the result
is a sublist of the input, and every returned row's name is selected). -/
theorem filtered_funds_spec (F : List Fund) (S : List String) :
    (S = [] → filtered_funds S F = F) ∧
    (filtered_funds S F).Sublist F ∧
    (S ≠ [] → filtered_funds S F = F.filter (fun f => S.contains f.fund)) ∧
    (∀ f, f ∈ filtered_funds S F → S ≠ [] → f.fund ∈ S) := by
  refine ⟨fun hS => ?_, ?_, fun hS => ?_, fun f hf hS => ?_⟩
  · simp [filtered_funds, hS]
  · by_cases hS : S.isEmpty
    · simp [filtered_funds, hS]
    · simp only [filtered_funds, hS, if_false]
      exact List.filter_sublist F
  · have h : ¬ S.isEmpty := by simpa [List.isEmpty_iff] using hS
    simp [filtered_funds, h]
  · have h : ¬ S.isEmpty := by simpa [List.isEmpty_iff] using hS
    simp only [filtered_funds, h, if_false] at hf
    have := List.of_mem_filter hf
    simpa using this

/-- Concrete instance of `filtered_funds_spec` on the sample data. -/
theorem filtered_funds_spec_witness :
    filtered_funds [] funds = funds ∧
    filtered_funds ["Fund II"] funds
      = funds.filter (fun f => (["Fund II"] : List String).contains f.fund) :=
  ⟨(filtered_funds_spec funds []).1 rfl,
   (filtered_funds_spec funds ["Fund II"]).2.2.1 (by decide)⟩

end GPDashboard

namespace GPDashboard

theorem parseYearCol_ok_rows (g : Company → String) (cs : List Company)
    (h : ∀ c ∈ cs, (pyInt (g c)).isSome) :
    parseYearCol (cs.map g) = Except.ok (cs.map (fun c => (pyInt (g c)).getD 0)) := by
  have hp := parseYearCol_ok (cs.map g) (by
    intro s hs
    obtain ⟨c, hc, rfl⟩ := List.mem_map.mp hs
    exact h c hc)
  rw [hp, List.map_map]
  rfl

theorem zip_map_self {α β : Type} (k : α → β) (cs : List α) :
    cs.zip (cs.map k) = cs.map (fun c => (c, k c)) := by
  induction cs with
  | nil => rfl
  | cons c cs ih => simp [ih]

theorem zipWith_map_same {α β γ δ : Type} (f : α → β) (g : α → γ) (op : β → γ → δ)
    (cs : List α) :
    List.zipWith op (cs.map f) (cs.map g) = cs.map (fun c => op (f c) (g c)) := by
  induction cs with
  | nil => rfl
  | cons c cs ih => simp [ih]

/-- C5: for every company collection whose year fields parse,
`holding_period` pairs each row with `(exit year if present else the fixed
sentinel 2025) − investment year`; on the sample rows Alpha (invested
2018, exited 2022) gets Holding 4 and Beta (invested 2019, no exit) gets
Holding 2025 − 2019 = 6. -/
theorem holding_period_spec (cs : List Company)
    (h : ∀ c ∈ cs, (pyInt (c.exitDate.getD "2025")).isSome ∧ (pyInt c.investmentDate).isSome) :
    holding_period cs = Except.ok (cs.map (fun c =>
      (c, (pyInt (c.exitDate.getD "2025")).getD 0 - (pyInt c.investmentDate).getD 0))) ∧
    holding_period [⟨"Alpha", "Fund I", "2018", some "2022", 10, 25, 2.5⟩,
                    ⟨"Beta", "Fund II", "2019", none, 15, 20, 1.33⟩]
      = Except.ok [(⟨"Alpha", "Fund I", "2018", some "2022", 10, 25, 2.5⟩, 4),
                   (⟨"Beta", "Fund II", "2019", none, 15, 20, 1.33⟩, 6)] := by
  constructor
  · have hex := parseYearCol_ok_rows (fun c => c.exitDate.getD "2025") cs
      (fun c hc => (h c hc).1)
    have hinv := parseYearCol_ok_rows (fun c => c.investmentDate) cs
      (fun c hc => (h c hc).2)
    simp only [holding_period, hex, hinv]
    rw [zipWith_map_same, zip_map_self]
  · rfl

/-- Concrete instance of `holding_period_spec` on the sample data. -/
theorem holding_period_spec_witness :
    (∀ c ∈ companies,
      (pyInt (c.exitDate.getD "2025")).isSome ∧ (pyInt c.investmentDate).isSome) ∧
    holding_period companies = Except.ok (companies.map (fun c =>
      (c, (pyInt (c.exitDate.getD "2025")).getD 0 - (pyInt c.investmentDate).getD 0))) :=
  ⟨by decide, (holding_period_spec companies (by decide)).1⟩

/-- C6: `summary_table` is a 4-row (metric, value) table holding the sums
of commitment, called capital, distributions and NAV, each rounded to 2
decimal places; on the full unfiltered sample fund set the values are
600, 520, 410 and 200. -/
theorem summary_table_spec (F : List Fund) :
    (summary_table F).length = 4 ∧
    (summary_table F).map Prod.fst
      = ["Total Commitment", "Total Called", "Total Distributions", "NAV"] ∧
    (summary_table F).map Prod.snd
      = [round2 ((F.map Fund.commitment).sum), round2 ((F.map Fund.called).sum),
         round2 ((F.map Fund.distributions).sum), round2 ((F.map Fund.nav).sum)] ∧
    summary_table funds
      = [("Total Commitment", 600), ("Total Called", 520),
         ("Total Distributions", 410), ("NAV", 200)] := by
  refine ⟨rfl, rfl, rfl, ?_⟩
  simp only [summary_table, funds, List.map_cons, List.map_nil, List.sum_cons,
    List.sum_nil]
  norm_num [round2, roundHalfEven]

end GPDashboard

namespace GPDashboard

/-- Lexicographic order on char lists (the order pandas uses when sorting
a string column): `true` iff the first list is ≤ the second. -/
def charListLe : List Char → List Char → Bool
  | [], _ => true
  | _ :: _, [] => false
  | a :: as, b :: bs => if a < b then true else if b < a then false else charListLe as bs

/-- Lexicographic ≤ on strings, via their character lists. -/
def strLe (a b : String) : Bool := charListLe a.data b.data

theorem charListLe_refl (as : List Char) : charListLe as as = true := by
  induction as with
  | nil => rfl
  | cons a as ih => simp [charListLe, lt_irrefl, ih]

theorem charListLe_total (as bs : List Char) :
    charListLe as bs = true ∨ charListLe bs as = true := by
  induction as generalizing bs with
  | nil => left; rfl
  | cons a as ih =>
    cases bs with
    | nil => right; rfl
    | cons b bs =>
      rcases lt_trichotomy a b with h | h | h
      · left; simp [charListLe, h]
      · subst h
        rcases ih bs with h2 | h2
        · left; simp [charListLe, lt_irrefl, h2]
        · right; simp [charListLe, lt_irrefl, h2]
      · right; simp [charListLe, h]

theorem charListLe_trans (as bs cs : List Char)
    (h1 : charListLe as bs = true) (h2 : charListLe bs cs = true) :
    charListLe as cs = true := by
  induction as generalizing bs cs with
  | nil => rfl
  | cons a as ih =>
    cases bs with
    | nil => simp [charListLe] at h1
    | cons b bs =>
      cases cs with
      | nil => simp [charListLe] at h2
      | cons c cs =>
        rcases lt_trichotomy a b with hab | hab | hab
        · rcases lt_trichotomy b c with hbc | hbc | hbc
          · simp [charListLe, lt_trans hab hbc]
          · subst hbc
            simp [charListLe, hab]
          · simp [charListLe, hbc, asymm hbc] at h2
        · subst hab
          rcases lt_trichotomy a c with hac | hac | hac
          · simp [charListLe, hac]
          · subst hac
            simp [charListLe, lt_irrefl] at h1 h2 ⊢
            exact ih bs cs h1 h2
          · simp [charListLe, hac, asymm hac] at h2
        · simp [charListLe, hab, asymm hab] at h1

/-- The relation on strings induced by `strLe`. -/
def strLeProp (a b : String) : Prop := strLe a b = true

instance : DecidableRel strLeProp := fun a b => instDecidableEqBool (strLe a b) true

instance : IsTotal String strLeProp := ⟨fun a b => charListLe_total a.data b.data⟩

instance : IsTrans String strLeProp := ⟨fun a b c => charListLe_trans a.data b.data c.data⟩

/-- Embedding of `cashflow_breakdown`:
`cashflows.groupby("Type")["Amount"].sum().reset_index()`: one row per
distinct event type — pandas sorts the group keys — holding the sum of the
amounts of that type. -/
def cashflow_breakdown (rows : List Cashflow) : List (String × Int) :=
  (List.insertionSort strLeProp ((rows.map (fun r => r.type)).dedup)).map
    (fun t => (t, ((rows.filter (fun r => decide (r.type = t))).map (fun r => r.amount)).sum))

end GPDashboard

namespace GPDashboard

/-- C7: each row of `cashflow_breakdown` carries the sum of the amounts of
the events of its type, the row keys are exactly the distinct event types,
and on the sample 8-event set the sums are Investment −45, Follow-on −5,
Exit 70, Dividend 7 (pandas presents the groups keyed alphabetically). -/
theorem cashflow_breakdown_spec (rows : List Cashflow) :
    (∀ p ∈ cashflow_breakdown rows,
        p.2 = ((rows.filter (fun r => decide (r.type = p.1))).map (fun r => r.amount)).sum) ∧
    (∀ t, t ∈ (cashflow_breakdown rows).map Prod.fst ↔ t ∈ rows.map (fun r => r.type)) ∧
    cashflow_breakdown cashflows
      = [("Dividend", 7), ("Exit", 70), ("Follow-on", -5), ("Investment", -45)] := by
  refine ⟨?_, ?_, ?_⟩
  · intro p hp
    obtain ⟨t, _, rfl⟩ := List.mem_map.mp hp
    rfl
  · intro t
    simp [cashflow_breakdown, List.mem_insertionSort, List.mem_dedup]
  · decide

/-- Concrete instance of `cashflow_breakdown_spec` on the sample data. -/
theorem cashflow_breakdown_spec_witness :
    ("Exit", (70 : Int)) ∈ cashflow_breakdown cashflows ∧
    (70 : Int)
      = ((cashflows.filter (fun r => decide (r.type = "Exit"))).map (fun r => r.amount)).sum :=
  ⟨by decide, (cashflow_breakdown_spec cashflows).1 ("Exit", 70) (by decide)⟩

end GPDashboard

namespace GPDashboard

/-- Date order on cash-flow events: lexicographic ≤ on the ISO date
strings (which coincides with chronological order for `YYYY-MM-DD`). -/
def dateLe (x y : Cashflow) : Prop := strLe x.date y.date = true

instance : DecidableRel dateLe := fun x y => instDecidableEqBool (strLe x.date y.date) true

instance : IsTotal Cashflow dateLe := ⟨fun x y => charListLe_total x.date.data y.date.data⟩

instance : IsTrans Cashflow dateLe :=
  ⟨fun x y z => charListLe_trans x.date.data y.date.data z.date.data⟩

/-- Embedding of `df = cashflows.sort_values("Date")`: sort the events by date
ascending.  On this dashboard's data all dates are pairwise distinct, so
every comparison sort returns this order; a stable insertion sort is used
here, which also pins down the order of equal-date rows as input order. -/
def sortByDate (rows : List Cashflow) : List Cashflow := List.insertionSort dateLe rows

/-- Embedding of `df.groupby("Fund")["Amount"].cumsum()`: walk the rows in order,
keeping one running total per fund, and pair each row with the running
total of its fund after adding the row's amount. -/
def cumsumAux : (String → Int) → List Cashflow → List (Cashflow × Int)
  | _, [] => []
  | acc, r :: rs =>
    (r, acc r.fund + r.amount) ::
      cumsumAux (fun f => if f = r.fund then acc r.fund + r.amount else acc f) rs

/-- Embedding of `cumulative_cashflow`: sort the events by date, then compute the
per-fund running totals (`Cumulative` column). -/
def cumulative_cashflow (rows : List Cashflow) : List (Cashflow × Int) :=
  cumsumAux (fun _ => 0) (sortByDate rows)

/-- Prefix sums of a list starting from `a` (each output entry is `a`
plus the sum of the inputs up to and including that position). -/
def prefixSums (a : Int) : List Int → List Int
  | [] => []
  | x :: xs => (a + x) :: prefixSums (a + x) xs

end GPDashboard

namespace GPDashboard

theorem orderedInsert_filter_date (a : Cashflow) (d : String) (L : List Cashflow) :
    (List.orderedInsert dateLe a L).filter (fun x => decide (x.date = d))
      = if a.date = d then a :: L.filter (fun x => decide (x.date = d))
        else L.filter (fun x => decide (x.date = d)) := by
  induction L with
  | nil =>
    rcases eq_or_ne a.date d with h | h <;> simp [List.orderedInsert, h]
  | cons b L ih =>
    by_cases hab : dateLe a b
    · rw [List.orderedInsert, if_pos hab]
      rcases eq_or_ne a.date d with h | h <;> rcases eq_or_ne b.date d with hb | hb <;>
        simp [List.filter_cons, h, hb]
    · rw [List.orderedInsert, if_neg hab]
      rcases eq_or_ne b.date d with hb | hb
      · have h : a.date ≠ d := by
          intro h
          apply hab
          show strLe a.date b.date = true
          rw [h, hb]
          exact charListLe_refl d.data
        simp [List.filter_cons, hb, h, ih]
      · rcases eq_or_ne a.date d with h | h <;> simp [List.filter_cons, hb, h, ih]

/-- Stability of the date sort: for every date, the events carrying that
date appear in `sortByDate rows` exactly as they appear in `rows`. -/
theorem sortByDate_filter (rows : List Cashflow) (d : String) :
    (sortByDate rows).filter (fun x => decide (x.date = d))
      = rows.filter (fun x => decide (x.date = d)) := by
  induction rows with
  | nil => rfl
  | cons r rows ih =>
    show (List.orderedInsert dateLe r (sortByDate rows)).filter _ = _
    rw [orderedInsert_filter_date]
    rcases eq_or_ne r.date d with h | h <;> simp [List.filter_cons, h, ih]

theorem cumsumAux_filter (f : String) (rs : List Cashflow) (acc : String → Int) :
    ((cumsumAux acc rs).filter (fun p => decide (p.1.fund = f))).map Prod.snd
      = prefixSums (acc f) ((rs.filter (fun r => decide (r.fund = f))).map (fun r => r.amount)) := by
  induction rs generalizing acc with
  | nil => rfl
  | cons r rs ih =>
    by_cases h : r.fund = f
    · subst h
      simp [cumsumAux, List.filter_cons, prefixSums, ih]
    · have h2 : f ≠ r.fund := fun hh => h hh.symm
      simp [cumsumAux, List.filter_cons, prefixSums, h, h2, ih]

theorem getLastD_prefixSums (xs : List Int) (a : Int) :
    (prefixSums a xs).getLastD a = a + xs.sum := by
  induction xs generalizing a with
  | nil => simp [prefixSums]
  | cons x xs ih =>
    rw [show prefixSums a (x :: xs) = (a + x) :: prefixSums (a + x) xs from rfl,
      List.getLastD_cons, ih, List.sum_cons, add_assoc]

/-- C3: `cumulative_cashflow` sorts events by date ascending with a
stable sort (for each date, equal-date events keep their input order) and
then computes, for each fund independently, the running prefix sums of
that fund's amounts in sorted order; the final cumulative value of a fund
is the plain sum of its amounts, which for Fund I of the sample data is
−10 − 15 − 5 + 30 + 2 = 2. -/
theorem cumulative_cashflow_spec :
    (∀ rows : List Cashflow, List.Sorted dateLe (sortByDate rows)) ∧
    (∀ (rows : List Cashflow) (d : String),
        (sortByDate rows).filter (fun x => decide (x.date = d))
          = rows.filter (fun x => decide (x.date = d))) ∧
    (∀ (rows : List Cashflow) (f : String),
        ((cumulative_cashflow rows).filter (fun p => decide (p.1.fund = f))).map Prod.snd
          = prefixSums 0
              (((sortByDate rows).filter (fun r => decide (r.fund = f))).map
                (fun r => r.amount))) ∧
    (∀ (rows : List Cashflow) (f : String),
        (((cumulative_cashflow rows).filter (fun p => decide (p.1.fund = f))).map
            Prod.snd).getLastD 0
          = ((rows.filter (fun r => decide (r.fund = f))).map (fun r => r.amount)).sum) ∧
    (((cumulative_cashflow cashflows).filter
        (fun p => decide (p.1.fund = "Fund I"))).map Prod.snd).getLastD 0 = 2 ∧
    ((cashflows.filter (fun r => decide (r.fund = "Fund I"))).map (fun r => r.amount)).sum
      = 2 := by
  refine ⟨?_, sortByDate_filter, ?_, ?_, by decide, by decide⟩
  · intro rows
    exact List.sorted_insertionSort dateLe rows
  · intro rows f
    exact cumsumAux_filter f (sortByDate rows) (fun _ => 0)
  · intro rows f
    simp only [cumulative_cashflow]
    rw [cumsumAux_filter f (sortByDate rows) (fun _ => 0), getLastD_prefixSums, zero_add]
    have hperm : List.Perm ((sortByDate rows).filter (fun r => decide (r.fund = f)))
        (rows.filter (fun r => decide (r.fund = f))) :=
      (List.perm_insertionSort dateLe rows).filter _
    exact (hperm.map (fun r => r.amount)).sum_eq

end GPDashboard

namespace GPDashboard

/-- The sidebar filter state (`input.fund_filter()`, `input.year_filter()`)
available to every server view. -/
structure Inputs where
  fund_filter : List String
  year_filter : Int
deriving DecidableEq

/-- Python `f"{x:.1f}"` for the nonnegative rationals occurring here:
round half to even at one decimal place and print with one digit after
the point. -/
def formatFixed1 (q : ℚ) : String :=
  let s := roundHalfEven (q * 10)
  toString (s / 10) ++ "." ++ toString (s % 10)

/-- Embedding of `lp_summary`: the text
`f"Total Commitment: ${total}M | Avg Commitment: ${avg:.1f}M | LPs: {n}"`
built from the sum, mean and count of the LP commitments. -/
def lp_summary (lps : List LP) : String :=
  let total := (lps.map LP.commitment).sum
  let avg : ℚ := (total : ℚ) / (lps.length : ℚ)
  "Total Commitment: $" ++ toString total ++ "M | Avg Commitment: $"
    ++ formatFixed1 avg ++ "M | LPs: " ++ toString lps.length

/-- The `cashflow_breakdown` output as a function of the filter state: its
body reads the module-level `cashflows` only, never `input`. -/
def cashflow_breakdown_view (_i : Inputs) : List (String × Int) :=
  cashflow_breakdown cashflows

/-- The `cumulative_cashflow` output as a function of the filter state:
its body reads the module-level `cashflows` only, never `input`. -/
def cumulative_cashflow_view (_i : Inputs) : List (Cashflow × Int) :=
  cumulative_cashflow cashflows

/-- The `pipeline_table` output as a function of the filter state: it
returns the module-level `pipeline_data` unconditionally. -/
def pipeline_table_view (_i : Inputs) : List Deal := pipeline_data

/-- The `lp_summary` output as a function of the filter state: its body
reads the module-level `lp_data` only, never `input`. -/
def lp_summary_view (_i : Inputs) : String := lp_summary lp_data

end GPDashboard

namespace GPDashboard

theorem lp_summary_eval :
    lp_summary lp_data = "Total Commitment: $90M | Avg Commitment: $30.0M | LPs: 3" := by
  have h2 : roundHalfEven
      ((((lp_data.map LP.commitment).sum : ℚ) / ((lp_data.length : ℕ) : ℚ)) * 10) = 300 := by
    norm_num [lp_data, roundHalfEven]
  simp only [lp_summary, formatFixed1, h2]
  rfl

/-- C10: the cash-flow breakdown, cumulative cash-flow, pipeline and LP
views are computed over the full fixed datasets and ignore the filter
state: any two filter states produce identical outputs, and the LP summary
always reads total commitment 90, average 30.0, and 3 LPs. -/
theorem views_independent_of_filters (i j : Inputs) :
    cashflow_breakdown_view i = cashflow_breakdown_view j ∧
    cumulative_cashflow_view i = cumulative_cashflow_view j ∧
    pipeline_table_view i = pipeline_table_view j ∧
    lp_summary_view i = lp_summary_view j ∧
    lp_summary_view i = "Total Commitment: $90M | Avg Commitment: $30.0M | LPs: 3" :=
  ⟨rfl, rfl, rfl, rfl, lp_summary_eval⟩

end GPDashboard

namespace GPDashboard

/-- A companies DataFrame as held by the reactive layer: the base rows
plus the `Holding` column once `holding_period` has assigned it in
place. -/
structure CompaniesDF where
  rows : List Company
  holding : Option (List Int)

/-- One call to the `filtered_companies` reactive calc, with its
memoization made explicit: `@reactive.calc` caches the returned frame and
hands the same object back until the inputs change, so the call takes and
returns the cache.  A fresh computation has no `Holding` column. -/
def filtered_companies_call (selected : List String) (year : Int)
    (cache : Option CompaniesDF) : Except String (CompaniesDF × Option CompaniesDF) :=
  match cache with
  | some df => Except.ok (df, some df)
  | none =>
    match filtered_companies selected year companies with
    | Except.error e => Except.error e
    | Except.ok rows => Except.ok (⟨rows, none⟩, some ⟨rows, none⟩)

/-- One call to the `holding_period` view: it fetches the cached
`filtered_companies` frame and then runs
`df["Holding"] = df["Exit Date"].fillna("2025").astype(int) - df["Investment Date"].astype(int)`,
which assigns the column on that very cached object — the cache now holds
the widened frame. -/
def holding_period_call (selected : List String) (year : Int)
    (cache : Option CompaniesDF) : Except String (CompaniesDF × Option CompaniesDF) :=
  match filtered_companies_call selected year cache with
  | Except.error e => Except.error e
  | Except.ok (df, _) =>
    match holding_period df.rows with
    | Except.error e => Except.error e
    | Except.ok pairs => Except.ok (⟨df.rows, some (pairs.map Prod.snd)⟩,
        some ⟨df.rows, some (pairs.map Prod.snd)⟩)

/-- C4 is violated by the code: with the sidebar at empty fund selection
and cutoff year 2019, calling `filtered_companies`, then `holding_period`,
then `filtered_companies` again — all with identical inputs — returns a
first frame without the `Holding` column and a second frame with it,
because `holding_period` assigns the column in place on the frame cached
by the `filtered_companies` reactive calc.  So `filtered_companies` called
twice with identical inputs does not yield identical output: state is
carried between calls. -/
theorem filtered_companies_not_stateless :
    filtered_companies_call [] 2019 none
        = Except.ok (⟨[⟨"Alpha", "Fund I", "2018", some "2022", 10, 25, 2.5⟩,
                       ⟨"Beta", "Fund II", "2019", none, 15, 20, 1.33⟩], none⟩,
            some ⟨[⟨"Alpha", "Fund I", "2018", some "2022", 10, 25, 2.5⟩,
                   ⟨"Beta", "Fund II", "2019", none, 15, 20, 1.33⟩], none⟩) ∧
    holding_period_call [] 2019
        (some ⟨[⟨"Alpha", "Fund I", "2018", some "2022", 10, 25, 2.5⟩,
                ⟨"Beta", "Fund II", "2019", none, 15, 20, 1.33⟩], none⟩)
        = Except.ok (⟨[⟨"Alpha", "Fund I", "2018", some "2022", 10, 25, 2.5⟩,
                       ⟨"Beta", "Fund II", "2019", none, 15, 20, 1.33⟩], some [4, 6]⟩,
            some ⟨[⟨"Alpha", "Fund I", "2018", some "2022", 10, 25, 2.5⟩,
                   ⟨"Beta", "Fund II", "2019", none, 15, 20, 1.33⟩], some [4, 6]⟩) ∧
    filtered_companies_call [] 2019
        (some ⟨[⟨"Alpha", "Fund I", "2018", some "2022", 10, 25, 2.5⟩,
                ⟨"Beta", "Fund II", "2019", none, 15, 20, 1.33⟩], some [4, 6]⟩)
        = Except.ok (⟨[⟨"Alpha", "Fund I", "2018", some "2022", 10, 25, 2.5⟩,
                       ⟨"Beta", "Fund II", "2019", none, 15, 20, 1.33⟩], some [4, 6]⟩,
            some ⟨[⟨"Alpha", "Fund I", "2018", some "2022", 10, 25, 2.5⟩,
                   ⟨"Beta", "Fund II", "2019", none, 15, 20, 1.33⟩], some [4, 6]⟩) ∧
    (⟨[⟨"Alpha", "Fund I", "2018", some "2022", 10, 25, 2.5⟩,
       ⟨"Beta", "Fund II", "2019", none, 15, 20, 1.33⟩], none⟩ : CompaniesDF)
      ≠ ⟨[⟨"Alpha", "Fund I", "2018", some "2022", 10, 25, 2.5⟩,
          ⟨"Beta", "Fund II", "2019", none, 15, 20, 1.33⟩], some [4, 6]⟩ := by
  refine ⟨rfl, rfl, rfl, ?_⟩
  intro h
  exact Option.noConfusion (congrArg CompaniesDF.holding h)

end GPDashboard
